import Mathlib

/-
  Verification development for the Novel-Forge Tracker repository
  (src/app/main.py, src/app/db.py).

  The embedding below mirrors the Python source:
  - TinyDB documents are ordered mappings from field names to loosely
    typed values (Value / Doc below).
  - The database holds the named tables "chapters", "todos",
    "edit_passes", and the TinyDB built-in table named _default, which
    this application never writes to.  TinyDB forwards the method
    db.all() to that built-in table, so db.all() returns the
    documents of the _default table only (db_all below), not the
    contents of the named tables.
  - The snapshot directory is a listing of file name / file content
    pairs; file names are ISO calendar dates, whose lexicographic
    order agrees with chronological order, so they are modelled by
    the date itself as a natural number.
  - The autosave function mirrors main.py lines 65-73, including the
    Python slice snaps[:-MAX_SNAPSHOTS] (pySliceTo below) and the
    sequential unlink loop, where a failing deletion raises and the
    exception escapes autosave (modelled as the Option Nat component
    of the result: some n means deletion of artifact n raised).
-/

namespace NovelForge

/-- Loosely typed field values of TinyDB documents as this application
uses them: strings, integers, booleans, and the Python None placeholder
that the pandas round trip introduces for missing cells. -/
inductive Value where
  | str (s : String)
  | int (n : Int)
  | bool (b : Bool)
  | noneV
deriving DecidableEq, Repr

/-- A TinyDB document: an ordered mapping from field names to values. -/
abbrev Doc := List (String × Value)

/-- Python dict.get k with default None: some value when the field is
present, none when the field is absent. -/
def dget (r : Doc) (k : String) : Option Value := r.lookup k

/-- The database state: the three named tables the application creates
plus the TinyDB built-in default table (named _default), which this
application never inserts into. -/
structure Store where
  chapters : List Doc
  todos : List Doc
  edit_passes : List Doc
  defaultTable : List Doc
deriving DecidableEq, Repr

/-- db.all() in main.py line 70: TinyDB forwards the call to the
built-in _default table, so it returns that table only. -/
def db_all (db : Store) : List Doc := db.defaultTable

/-- Modelled from the spec: export_all returns the mapping from every
collection name to its full record sequence.  No such function exists
under src/; the spec (section 4.1) requires it as the source of a
snapshot, and we define it here only to compare it with what the code
actually persists. -/
def export_all (db : Store) : List (String × List Doc) :=
  [("chapters", db.chapters), ("todos", db.todos), ("edit_passes", db.edit_passes)]

/-- MAX_SNAPSHOTS = 5, main.py line 22. -/
def MAX_SNAPSHOTS : Int := 5

/-- The snapshot directory: a listing of file name / file content
pairs.  Names are the ISO dates of the snapshots, modelled as natural
numbers because the lexicographic order of ISO date strings agrees
with the order of the dates they denote. -/
abbrev SnapDir := List (Nat × List Doc)

/-- Python list slice l[:stop]: for nonnegative stop the first stop
elements, for negative stop all but the last (-stop) elements, clamped
at the list bounds in both cases. -/
def pySliceTo {α : Type} (stop : Int) (l : List α) : List α :=
  if 0 ≤ stop then l.take stop.toNat else l.take (l.length - (-stop).toNat)

/-- Deletion of the file named n from the directory (old.unlink()). -/
def removeName (dir : SnapDir) (n : Nat) : SnapDir :=
  dir.filter (fun p => decide (p.1 ≠ n))

/-- The pruning loop of main.py lines 72-73: unlink each listed name in
order.  canDelete models the filesystem: when canDelete n is false the
unlink of n raises, the loop stops, and the exception escapes; the
result records the directory reached and (some n) for the escaped
exception, or none when every deletion succeeded. -/
def pruneLoop (canDelete : Nat → Bool) : SnapDir → List Nat → SnapDir × Option Nat
  | dir, [] => (dir, none)
  | dir, n :: ns =>
      if canDelete n then pruneLoop canDelete (removeName dir n) ns
      else (dir, some n)

/-- sorted(...) on file names, main.py line 71: ascending order. -/
def sortNames (l : List Nat) : List Nat := l.insertionSort (· ≤ ·)

/-- sorted(SNAPSHOT_DIR.glob("*.json")): the directory listing sorted
by file name. -/
def globSorted (dir : SnapDir) : List Nat := sortNames (dir.map Prod.fst)

/-- snap_file.exists(), main.py line 68: the name is present in the
directory listing. -/
def snapExists (dir : SnapDir) (d : Nat) : Bool := decide (d ∈ dir.map Prod.fst)

/-- A filesystem on which every deletion succeeds. -/
def alwaysDelete : Nat → Bool := fun _ => true

/-- autosave(), main.py lines 65-73.  today is the current date,
maxSnapshots the retention constant (MAX_SNAPSHOTS in the code).  If an
artifact named by today already exists nothing happens; otherwise the
dump of db.all() is written under the name today, the directory is
listed and sorted by name, and the slice snaps[:-maxSnapshots] is
deleted file by file.  The Option Nat component is the exception that
escaped the deletion loop, if any. -/
def autosave (canDelete : Nat → Bool) (maxSnapshots : Int) (today : Nat)
    (db : Store) (dir : SnapDir) : SnapDir × Option Nat :=
  if snapExists dir today then (dir, none)
  else
    pruneLoop canDelete ((today, db_all db) :: dir)
      (pySliceTo (-maxSnapshots) (globSorted ((today, db_all db) :: dir)))

/-- Repeated checkpoints: one autosave per date in the given list, in
order, on a filesystem where deletions succeed. -/
def runCheckpoints (maxSnapshots : Int) (db : Store) (dates : List Nat)
    (dir : SnapDir) : SnapDir :=
  dates.foldl (fun acc t => (autosave alwaysDelete maxSnapshots t db acc).1) dir

/-- A chapter row as the sidebar dashboard reads it: the two numeric
fields it consults, each possibly absent. -/
structure Chapter where
  word_count : Option Int
  start_words : Option Int
deriving DecidableEq, Repr

/-- main.py line 100: sum of ch.get("word_count", 0). -/
def total_words (chs : List Chapter) : Int :=
  (chs.map (fun ch => ch.word_count.getD 0)).sum

/-- main.py lines 101-103: sum of ch.get("start_words", ch.get("word_count", 0)). -/
def start_words (chs : List Chapter) : Int :=
  (chs.map (fun ch => ch.start_words.getD (ch.word_count.getD 0))).sum

/-- main.py line 104: delta = total_words - start_words. -/
def delta (chs : List Chapter) : Int := total_words chs - start_words chs

/-- Python exceptions relevant to the sidebar arithmetic. -/
inductive PyErr where
  | zeroDivision
deriving DecidableEq, Repr

/-- Python division a / b on numbers: raises ZeroDivisionError when b
is zero.  Exact rationals stand in for Python floats; the claims
settled with it concern only whether the division raises. -/
def pyDiv (a b : Int) : Except PyErr Rat :=
  if b = 0 then Except.error PyErr.zeroDivision
  else Except.ok ((a : Rat) / (b : Rat))

/-- Lower bound of the target words input, main.py line 105:
st.number_input("Target total words", 0, 500_000, value=90_000). -/
def target_words_min : Int := 0

/-- main.py line 108: min(total_words / target_words, 1.0), as fed to
st.progress, with the division modelled fallibly. -/
def progressValue (chs : List Chapter) (target : Int) : Except PyErr Rat :=
  (pyDiv (total_words chs) target).map (fun q => min q 1)

/-- TinyDB Table.truncate(): remove every document. -/
def truncate (_t : List Doc) : List Doc := []

/-- TinyDB Table.insert_multiple(records): append in the given order. -/
def insert_multiple (t : List Doc) (records : List Doc) : List Doc := t ++ records

/-- The save handlers of main.py (lines 144-145, 199-200, 231-232):
table.truncate() followed by table.insert_multiple(records). -/
def replace_collection (t : List Doc) (records : List Doc) : List Doc :=
  insert_multiple (truncate t) records

/-- Table.all(): the stored documents in insertion order. -/
def get_collection (t : List Doc) : List Doc := t

/-- Python truthiness of the result of r.get(k): None and a missing
field are falsy, a string is truthy when nonempty, a boolean is its
own truth value, an integer is truthy when nonzero. -/
def pyTruthy : Option Value → Bool
  | Option.none => false
  | Option.some (Value.str s) => !s.isEmpty
  | Option.some (Value.bool b) => b
  | Option.some (Value.int n) => decide (n ≠ 0)
  | Option.some Value.noneV => false

/-- The membership test v in ("", None) of main.py line 197: Python
equality against the empty string and against None.  False and 0 are
equal to neither, so they do not pass this test. -/
def blankMember : Value → Bool
  | Value.str s => s.isEmpty
  | Value.noneV => true
  | _ => false

/-- main.py line 230: the todos save handler keeps the rows whose task
field is truthy (r.get("task")). -/
def save_todos_filter (rows : List Doc) : List Doc :=
  rows.filter (fun r => pyTruthy (dget r "task"))

/-- main.py lines 195-198: the passes save handler keeps the rows with
at least one value outside ("", None). -/
def save_passes_filter (rows : List Doc) : List Doc :=
  rows.filter (fun r => r.any (fun kv => !(blankMember kv.2)))

/-- Blankness of a field value in the sense of the specification: a
value an editor leaves in an untouched cell, that is the empty string,
None, False, or 0 (everything Python regards as falsy). -/
def specBlankValue (v : Value) : Bool := !(pyTruthy (Option.some v))

/-- Blankness of a whole row in the sense of the specification: every
field of the row is blank. -/
def rowBlank (r : Doc) : Bool := r.all (fun kv => specBlankValue kv.2)

/-- An optional deadline value as the chapters tab receives it: absent,
a well-formed date (as a day number), or a malformed string. -/
inductive DeadlineInput where
  | absent
  | valid (day : Int)
  | malformed (s : String)
deriving DecidableEq, Repr

/-- The three shapes of a countdown display. -/
inductive CountdownResult where
  | remaining (days : Nat)
  | overdue
  | unknown
deriving DecidableEq, Repr

/-- Modelled from the spec: countdown(deadline_value) returns the
remaining-days count for a future deadline, the overdue marker for a
past deadline, and the unknown marker for an absent or malformed
deadline, never raising.  No countdown implementation exists under
src/; the chapters tab (main.py lines 127-129) only coerces deadline
values with errors="coerce", which maps malformed input to NaT, the
unparseable marker this model calls malformed. -/
def countdown (today : Int) : DeadlineInput → CountdownResult
  | DeadlineInput.absent => CountdownResult.unknown
  | DeadlineInput.malformed _ => CountdownResult.unknown
  | DeadlineInput.valid d =>
      if d < today then CountdownResult.overdue
      else CountdownResult.remaining (d - today).toNat

/-- The demo chapter record of a fresh database (assets/test_data.json
shape), abbreviated to the fields the claims consult. -/
def demoChapter : Doc :=
  [("#", Value.int 1), ("title", Value.str "Chapter 1"), ("word_count", Value.int 1000)]

/-- A store holding one chapter and nothing else; its _default table is
empty, as it always is in this application. -/
def demoStore : Store :=
  { chapters := [demoChapter], todos := [], edit_passes := [], defaultTable := [] }

/-- A filesystem on which deleting the artifact named 1 raises. -/
def failOnOne : Nat → Bool := fun n => decide (n ≠ 1)

end NovelForge

namespace NovelForge

/-- Claim C6: replacing a collection is a full overwrite: for every
prior table contents and every submitted record list, truncate followed
by insert_multiple leaves the table holding exactly the submitted
records in order, with nothing of the prior contents surviving, and an
empty submission yields an empty collection rather than an error. -/
theorem replace_collection_full_overwrite :
    ∀ (t records : List Doc),
      get_collection (replace_collection t records) = records ∧
      get_collection (replace_collection t []) = [] := by
  intro t records
  constructor
  · simp [get_collection, replace_collection, insert_multiple, truncate]
  · simp [get_collection, replace_collection, insert_multiple, truncate]

/-- Claim C7: the sidebar aggregates: total_words sums word_count with
a missing field counted as 0, start_words sums start_words falling back
to word_count and then to 0, delta is their difference; on the chapter
list with word counts 1000 (baseline 800) and 500 (no baseline) the
values are 1500, 1300 and 200. -/
theorem aggregates_correct :
    total_words [⟨some 1000, some 800⟩, ⟨some 500, none⟩] = 1500 ∧
    start_words [⟨some 1000, some 800⟩, ⟨some 500, none⟩] = 1300 ∧
    delta [⟨some 1000, some 800⟩, ⟨some 500, none⟩] = 200 ∧
    (∀ chs : List Chapter, delta chs = total_words chs - start_words chs) := by
  refine ⟨by decide, by decide, by decide, ?_⟩
  intro chs
  rfl

/-- Sorting by name agrees with reversal on a listing that is strictly
descending by name. -/
theorem sortNames_of_sorted_gt (l : List Nat) (h : l.Sorted (· > ·)) :
    sortNames l = l.reverse := by
  have hrev : l.reverse.Sorted (· ≤ ·) := by
    rw [List.Sorted, List.pairwise_reverse]
    exact h.imp (fun hab => le_of_lt hab)
  exact List.eq_of_perm_of_sorted
    ((List.perm_insertionSort _ l).trans l.reverse_perm.symm)
    (List.sorted_insertionSort _ l) hrev

/-- On a filesystem where every deletion succeeds, the pruning loop
removes exactly the listed names and raises nothing. -/
theorem pruneLoop_alwaysDelete (names : List Nat) :
    ∀ dir : SnapDir,
      pruneLoop alwaysDelete dir names =
        (dir.filter (fun p => decide (p.1 ∉ names)), none) := by
  induction names with
  | nil => intro dir; simp [pruneLoop]
  | cons n ns ih =>
      intro dir
      simp only [pruneLoop, alwaysDelete, if_true]
      rw [ih (removeName dir n)]
      refine Prod.ext ?_ rfl
      show (removeName dir n).filter _ = _
      rw [removeName, List.filter_filter]
      apply List.filter_congr
      intro p _
      simp [List.mem_cons, not_or, Bool.and_comm]

/-- An entry whose name the pruning loop does not target survives it,
whether or not some deletion raises. -/
theorem pruneLoop_preserves (canDelete : Nat → Bool) :
    ∀ (names : List Nat) (dir : SnapDir) (p : Nat × List Doc),
      p ∈ dir → p.1 ∉ names → p ∈ (pruneLoop canDelete dir names).1 := by
  intro names
  induction names with
  | nil => intro dir p hp _; simpa [pruneLoop] using hp
  | cons n ns ih =>
      intro dir p hp hnot
      simp only [pruneLoop]
      by_cases hc : canDelete n = true
      · rw [if_pos hc]
        apply ih
        · rw [removeName, List.mem_filter]
          refine ⟨hp, ?_⟩
          simp only [decide_eq_true_eq]
          intro he
          exact hnot (by simp [he])
        · intro hmem
          exact hnot (List.mem_cons_of_mem _ hmem)
      · rw [if_neg hc]
        exact hp

/-- Filtering a strictly descending name list by exclusion from the
first k names of its reversal keeps exactly its first length - k
names: the k smallest names are dropped. -/
theorem filter_take_reverse_of_sorted_gt :
    ∀ (l : List Nat), l.Sorted (· > ·) →
      ∀ k : Nat,
        l.filter (fun d => decide (d ∉ l.reverse.take k)) =
          l.take (l.length - k) := by
  intro l
  induction l with
  | nil => intro _ k; simp
  | cons a l ih =>
      intro h k
      obtain ⟨ha, hl⟩ := List.sorted_cons.mp h
      by_cases hk : k ≤ l.length
      · have htake : (a :: l).reverse.take k = l.reverse.take k := by
          rw [List.reverse_cons]
          exact List.take_append_of_le_length (by simpa using hk)
        have hamem : a ∉ l.reverse.take k := by
          intro hmem
          have hrev : a ∈ l.reverse := List.take_subset _ _ hmem
          have : a ∈ l := by simpa using hrev
          exact absurd (ha a this) (lt_irrefl a)
        rw [htake, List.filter_cons]
        rw [if_pos (by simpa using hamem)]
        rw [ih hl k]
        have hlen : (a :: l).length - k = (l.length - k) + 1 := by
          simp only [List.length_cons]
          omega
        rw [hlen, List.take_succ_cons]
      · have htake : (a :: l).reverse.take k = (a :: l).reverse :=
          List.take_of_length_le
            (by simp only [List.length_reverse, List.length_cons]; omega)
        rw [htake]
        have hnil :
            (a :: l).filter (fun d => decide (d ∉ (a :: l).reverse)) = [] := by
          rw [List.filter_eq_nil_iff]
          intro x hx
          simp only [decide_eq_true_eq, not_not, List.mem_reverse]
          exact hx
        rw [hnil]
        have hz : (a :: l).length - k = 0 := by
          simp only [List.length_cons]
          omega
        rw [hz, List.take_zero]

/-- Taking n of an appended list whose right part is already truncated
at n is taking n of the plain appended list. -/
theorem take_append_take {α : Type} (A B : List α) (N : Nat) :
    (A ++ B.take N).take N = (A ++ B).take N := by
  rw [List.take_append_eq_append_take, List.take_append_eq_append_take,
    List.take_take]
  rw [Nat.min_eq_left (Nat.sub_le _ _)]

/-- Truncating a list at length - (length - N) is truncating it at
N. -/
theorem take_sub_sub {α : Type} (l : List α) (N : Nat) :
    l.take (l.length - (l.length - N)) = l.take N := by
  by_cases h : N ≤ l.length
  · congr 1
    omega
  · have h1 : l.length - (l.length - N) = l.length := by omega
    rw [h1, List.take_length, List.take_of_length_le (le_of_not_le h)]

/-- One checkpoint on a date fresh to the directory and newer than
every name it holds, over a filesystem where deletions succeed: the new
artifact is written and the listing is truncated to the newest N
names. -/
theorem autosave_fresh (N : Nat) (hN : 1 ≤ N) (t : Nat) (db : Store)
    (kept : List Nat) (hs : (t :: kept).Sorted (· > ·)) :
    autosave alwaysDelete (N : Int) t db
        (kept.map (fun d => (d, db_all db))) =
      (((t :: kept).take N).map (fun d => (d, db_all db)), none) := by
  obtain ⟨ht, hk⟩ := List.sorted_cons.mp hs
  have htnot : t ∉ kept := fun hmem => absurd (ht t hmem) (lt_irrefl t)
  have hidmap : (Prod.fst ∘ fun d : Nat => (d, db_all db)) = id := rfl
  have hex : snapExists (kept.map (fun d => (d, db_all db))) t = false := by
    rw [snapExists, List.map_map, hidmap, List.map_id]
    simpa using htnot
  have hcons : ((t, db_all db) :: kept.map (fun d => (d, db_all db))) =
      (t :: kept).map (fun d => (d, db_all db)) := by
    rw [List.map_cons]
  have hglob : globSorted ((t :: kept).map (fun d => (d, db_all db))) =
      (t :: kept).reverse := by
    rw [globSorted, List.map_map, hidmap, List.map_id]
    exact sortNames_of_sorted_gt _ hs
  have hslice : pySliceTo (-(N : Int)) (t :: kept).reverse =
      (t :: kept).reverse.take ((t :: kept).length - N) := by
    rw [pySliceTo, if_neg (by omega)]
    congr 1
    simp only [List.length_reverse, neg_neg, Int.toNat_natCast]
  have hfilter : ((t :: kept).map (fun d => (d, db_all db))).filter
      (fun p => decide (p.1 ∉ (t :: kept).reverse.take ((t :: kept).length - N))) =
      ((t :: kept).take N).map (fun d => (d, db_all db)) := by
    rw [List.filter_map]
    rw [show ((fun p : Nat × List Doc =>
        decide (p.1 ∉ (t :: kept).reverse.take ((t :: kept).length - N))) ∘
        (fun d => (d, db_all db))) =
        (fun d => decide (d ∉ (t :: kept).reverse.take ((t :: kept).length - N)))
        from rfl]
    rw [filter_take_reverse_of_sorted_gt _ hs, take_sub_sub]
  rw [autosave.eq_def, hex, if_neg Bool.false_ne_true, hcons, hglob, hslice,
    pruneLoop_alwaysDelete, hfilter]

/-- Checkpoints on successive fresh dates, over a filesystem where
deletions succeed, keep the directory equal to the newest N of the
dates seen so far, newest first, each carrying the dump of db.all(). -/
theorem runCheckpoints_invariant (N : Nat) (hN : 1 ≤ N) (db : Store) :
    ∀ (dates kept : List Nat),
      dates.Sorted (· < ·) →
      kept.Sorted (· > ·) →
      (∀ a ∈ kept, ∀ b ∈ dates, a < b) →
      kept.length ≤ N →
      runCheckpoints (N : Int) db dates (kept.map (fun d => (d, db_all db))) =
        ((dates.reverse ++ kept).take N).map (fun d => (d, db_all db)) := by
  intro dates
  induction dates with
  | nil =>
      intro kept _ _ _ hlen
      rw [runCheckpoints, List.foldl_nil, List.reverse_nil, List.nil_append,
        List.take_of_length_le hlen]
  | cons t rest ih =>
      intro kept hd hk hlt hlen
      obtain ⟨htrest, hrest⟩ := List.sorted_cons.mp hd
      have hfresh : (t :: kept).Sorted (· > ·) := by
        rw [List.sorted_cons]
        exact ⟨fun b hb => hlt b hb t (List.mem_cons_self t rest), hk⟩
      have step := autosave_fresh N hN t db kept hfresh
      rw [runCheckpoints, List.foldl_cons]
      rw [show (autosave alwaysDelete (N : Int) t db
            (kept.map (fun d => (d, db_all db)))).1 =
          ((t :: kept).take N).map (fun d => (d, db_all db))
          from by rw [step]]
      have hk1 : ((t :: kept).take N).Sorted (· > ·) :=
        hfresh.sublist (List.take_sublist N (t :: kept))
      have hlt1 : ∀ a ∈ (t :: kept).take N, ∀ b ∈ rest, a < b := by
        intro a ha b hb
        rcases List.mem_cons.mp (List.take_subset _ _ ha) with hat | hak
        · rw [hat]
          exact htrest b hb
        · exact hlt a hak b (List.mem_cons_of_mem t hb)
      have hlen1 : ((t :: kept).take N).length ≤ N := by
        rw [List.length_take]
        exact Nat.min_le_left _ _
      have ihres := ih ((t :: kept).take N) hrest hk1 hlt1 hlen1
      rw [show runCheckpoints (N : Int) db rest
            (((t :: kept).take N).map (fun d => (d, db_all db))) =
          rest.foldl
            (fun acc u => (autosave alwaysDelete (N : Int) u db acc).1)
            (((t :: kept).take N).map (fun d => (d, db_all db)))
          from rfl] at ihres
      rw [ihres, take_append_take, List.reverse_cons, List.append_assoc,
        List.singleton_append]

/-- Claim C3: the retention bound: with a positive retention count N,
after N + k checkpoints on N + k distinct calendar dates taken in
chronological order from an empty snapshot directory, exactly N
artifacts remain and they are the ones named by the N most recent
dates; the code fixes N as MAX_SNAPSHOTS = 5. -/
theorem retention_bound :
    ∀ (N k : Nat) (db : Store) (dates : List Nat),
      1 ≤ N → dates.Sorted (· < ·) → dates.length = N + k →
      MAX_SNAPSHOTS = 5 ∧
      runCheckpoints (N : Int) db dates [] =
        ((dates.drop k).reverse).map (fun d => (d, db_all db)) ∧
      (runCheckpoints (N : Int) db dates []).length = N := by
  intro N k db dates hN hd hlen
  have base := runCheckpoints_invariant N hN db dates [] hd
    (by simp) (by intro a ha; simp at ha) (by simp)
  have hres : runCheckpoints (N : Int) db dates [] =
      ((dates.drop k).reverse).map (fun d => (d, db_all db)) := by
    rw [show (([] : List Nat).map (fun d => (d, db_all db))) = ([] : SnapDir)
        from rfl] at base
    rw [base, List.append_nil, List.take_reverse,
      show dates.length - N = k from by omega]
  refine ⟨rfl, hres, ?_⟩
  rw [hres, List.length_map, List.length_reverse, List.length_drop]
  omega

/-- Claim C3 witness: seven checkpoints on the dates 1 through 7 with
the retention count 5 of the code leave exactly the five artifacts for
the dates 3 through 7, newest first. -/
theorem retention_bound_witness :
    runCheckpoints ((5 : Nat) : Int) demoStore [1, 2, 3, 4, 5, 6, 7] [] =
      [(7, []), (6, []), (5, []), (4, []), (3, [])] ∧
    (runCheckpoints ((5 : Nat) : Int) demoStore [1, 2, 3, 4, 5, 6, 7] []).length = 5 := by
  have h := retention_bound 5 2 demoStore [1, 2, 3, 4, 5, 6, 7]
    (by decide) (by decide) (by decide)
  refine ⟨?_, h.2.2⟩
  rw [h.2.1]
  decide

/-- Claim C4 counterexample: a checkpoint on day 6 over five older
artifacts, on a filesystem where deleting the artifact named 1 raises:
the new artifact is written first and survives, but the deletion
failure is not caught anywhere in autosave, so the exception escapes
the checkpoint (the some 1 component) instead of being reported and
swallowed as the claim states. -/
theorem prune_failure_propagates :
    autosave failOnOne MAX_SNAPSHOTS 6 demoStore
        [(5, []), (4, []), (3, []), (2, []), (1, [])] =
      ([(6, []), (5, []), (4, []), (3, []), (2, []), (1, [])], some 1) ∧
    (6, db_all demoStore) ∈
      (autosave failOnOne MAX_SNAPSHOTS 6 demoStore
        [(5, []), (4, []), (3, []), (2, []), (1, [])]).1 := by
  refine ⟨by decide, by decide⟩

/-- Claim C4 amended: the new snapshot artifact is durably written
before any pruning deletion begins, and it is still present in the
directory after a deletion failure, because with a positive retention
count a fresh date newer than every artifact name is never in the
pruning slice; the failure itself, however, is not caught: it
propagates out of the checkpoint. -/
theorem snapshot_durable_before_prune :
    ∀ (canDelete : Nat → Bool) (maxS : Int) (today : Nat) (db : Store)
      (dir : SnapDir),
      (dir.map Prod.fst).Sorted (· > ·) →
      (∀ a ∈ dir.map Prod.fst, a < today) →
      1 ≤ maxS →
      (today, db_all db) ∈ (autosave canDelete maxS today db dir).1 := by
  intro canDelete maxS today db dir hsorted hlt hpos
  have hex : snapExists dir today = false := by
    rw [snapExists]
    simp only [decide_eq_false_iff_not]
    intro hmem
    exact absurd (hlt today hmem) (lt_irrefl today)
  have hsorted1 : (today :: dir.map Prod.fst).Sorted (· > ·) := by
    rw [List.sorted_cons]
    exact ⟨hlt, hsorted⟩
  have hglob : globSorted ((today, db_all db) :: dir) =
      (dir.map Prod.fst).reverse ++ [today] := by
    rw [globSorted, List.map_cons, sortNames_of_sorted_gt _ hsorted1,
      List.reverse_cons]
  have hone : 1 ≤ maxS.toNat := by omega
  have hslice : pySliceTo (-maxS) (globSorted ((today, db_all db) :: dir)) =
      ((dir.map Prod.fst).reverse).take
        ((dir.map Prod.fst).length + 1 - maxS.toNat) := by
    rw [hglob, pySliceTo, if_neg (by omega), neg_neg]
    rw [List.length_append, List.length_reverse, List.length_singleton]
    exact List.take_append_of_le_length
      (by rw [List.length_reverse]; omega)
  have htodaynot : today ∉ pySliceTo (-maxS)
      (globSorted ((today, db_all db) :: dir)) := by
    rw [hslice]
    intro hmem
    have h1 : today ∈ (dir.map Prod.fst).reverse := List.take_subset _ _ hmem
    have h2 : today ∈ dir.map Prod.fst := by simpa using h1
    exact absurd (hlt today h2) (lt_irrefl today)
  rw [autosave.eq_def, hex, if_neg Bool.false_ne_true]
  exact pruneLoop_preserves canDelete _ _ _
    (List.mem_cons_self _ _) htodaynot

/-- Claim C4 amended witness: on the concrete failing filesystem of the
counterexample, the artifact for day 6 holding the dump of db.all() is
present in the directory autosave leaves behind. -/
theorem snapshot_durable_before_prune_witness :
    (6, db_all demoStore) ∈
      (autosave failOnOne MAX_SNAPSHOTS 6 demoStore
        [(5, []), (4, []), (3, []), (2, []), (1, [])]).1 :=
  snapshot_durable_before_prune failOnOne MAX_SNAPSHOTS 6 demoStore
    [(5, []), (4, []), (3, []), (2, []), (1, [])]
    (by decide) (by decide) (by decide)

/-- Claim C1: evaluation of autosave at a store holding one chapter,
with an empty snapshot directory.  The artifact it persists holds
db.all(), which TinyDB reads from the built-in _default table, so the
artifact content is the empty list even though the chapters collection
is not empty: the snapshot is not the full point-in-time copy of every
collection (export_all) that the claim and the spec require. -/
theorem autosave_snapshot_misses_collections :
    (autosave alwaysDelete MAX_SNAPSHOTS 100 demoStore []).1 = [(100, [])] ∧
    db_all demoStore = [] ∧
    demoStore.chapters = [demoChapter] ∧
    export_all demoStore =
      [("chapters", [demoChapter]), ("todos", []), ("edit_passes", [])] ∧
    demoStore.chapters.length = 1 := by
  refine ⟨by decide, rfl, rfl, rfl, rfl⟩

/-- Claim C2: when an artifact for today already exists, autosave is a
no-op: the directory is unchanged, nothing is deleted and no error is
raised; a second call on the resulting state is equally a no-op, and
under the filesystem invariant that file names are unique, the
directory holds exactly one artifact named by today. -/
theorem autosave_same_day_idempotent :
    ∀ (canDelete : Nat → Bool) (maxS : Int) (today : Nat) (db : Store)
      (dir : SnapDir),
      snapExists dir today = true →
      autosave canDelete maxS today db dir = (dir, none) ∧
      autosave canDelete maxS today db
        (autosave canDelete maxS today db dir).1 = (dir, none) ∧
      ((dir.map Prod.fst).Nodup → (dir.map Prod.fst).count today = 1) := by
  intro canDelete maxS today db dir h
  have h1 : autosave canDelete maxS today db dir = (dir, none) := by
    simp [autosave, h]
  refine ⟨h1, ?_, ?_⟩
  · rw [h1]
    exact h1
  · intro hnd
    have hmem : today ∈ dir.map Prod.fst := by
      simpa [snapExists] using h
    exact List.count_eq_one_of_mem hnd hmem

/-- Claim C2 witness: a directory already holding an artifact for day 7
is left untouched by autosave, twice over, and holds exactly one
artifact named 7. -/
theorem autosave_same_day_idempotent_witness :
    autosave alwaysDelete MAX_SNAPSHOTS 7 demoStore [(7, [])] = ([(7, [])], none) ∧
    (([(7, [])] : SnapDir).map Prod.fst).count 7 = 1 := by
  have h := autosave_same_day_idempotent alwaysDelete MAX_SNAPSHOTS 7 demoStore
    [(7, [])] (by decide)
  exact ⟨h.1, h.2.2 (by decide)⟩

/-- Claim C5 counterexample: with retention count 0, the Python slice
snaps[:-0] is snaps[:0], the empty list, so a checkpoint on day 3 over
a directory holding artifacts 1 and 2 deletes nothing at all: all three
artifacts remain, directly contradicting the claim that everything,
including the artifact just written, is deleted. -/
theorem retention_zero_deletes_nothing :
    autosave alwaysDelete 0 3 demoStore [(1, []), (2, [])] =
      ([(3, []), (1, []), (2, [])], none) ∧
    (autosave alwaysDelete 0 3 demoStore [(1, []), (2, [])]).1.length = 3 := by
  refine ⟨by decide, by decide⟩

/-- Claim C5 amended: with retention count 0 a checkpoint deletes
nothing: the new artifact is written and every old artifact survives.
With a negative retention count -k, a checkpoint deletes the k oldest
artifacts by name, which reaches the artifact just written only when k
is at least the total artifact count: retention -1 over two older
artifacts deletes just the oldest, while retention -5 over two older
artifacts deletes everything including the new artifact. -/
theorem degenerate_retention_behavior :
    (∀ (today : Nat) (db : Store) (dir : SnapDir),
      snapExists dir today = false →
      autosave alwaysDelete 0 today db dir = ((today, db_all db) :: dir, none)) ∧
    autosave alwaysDelete (-1) 6 demoStore [(5, []), (4, [])] =
      ([(6, []), (5, [])], none) ∧
    autosave alwaysDelete (-5) 6 demoStore [(5, []), (4, [])] = ([], none) := by
  refine ⟨?_, by decide, by decide⟩
  intro today db dir h
  simp [autosave, h, pySliceTo, pruneLoop]

/-- Claim C5 amended witness: a checkpoint with retention 0 on day 9
over a directory holding artifact 8 writes the new artifact and deletes
nothing. -/
theorem degenerate_retention_behavior_witness :
    autosave alwaysDelete 0 9 demoStore [(8, [])] = ([(9, []), (8, [])], none) := by
  have h := degenerate_retention_behavior.1 9 demoStore [(8, [])] (by decide)
  simpa [db_all, demoStore] using h

/-- Claim C8 counterexample: the todos handler keeps a row exactly when
its task field is truthy, and the passes handler keeps a row exactly
when some value avoids the pair of the empty string and None, so the
claimed blank-row rule fails on both sides: the todo row with empty
task and done set to True is not entirely blank yet is dropped, and the
passes row with empty focus, status False and empty chapter is entirely
blank yet is kept, because False is equal to neither the empty string
nor None. -/
theorem blank_row_filtering_cex :
    (rowBlank [("task", Value.str ""), ("done", Value.bool true)] = false ∧
      save_todos_filter [[("task", Value.str ""), ("done", Value.bool true)]] = []) ∧
    (rowBlank [("focus", Value.str ""), ("status", Value.bool false),
        ("chapter", Value.str "")] = true ∧
      save_passes_filter [[("focus", Value.str ""), ("status", Value.bool false),
        ("chapter", Value.str "")]] =
        [[("focus", Value.str ""), ("status", Value.bool false),
          ("chapter", Value.str "")]]) := by
  refine ⟨⟨by decide, by decide⟩, ⟨by decide, by decide⟩⟩

/-- Claim C8 amended: the todos handler keeps a row if and only if its
task field is truthy, dropping rows with a blank task even when another
field is non-blank; the passes handler keeps a row if and only if at
least one of its values is neither the empty string nor None, under
which test False counts as non-blank; the concrete example of the
claim still holds: of the two todo rows with empty and nonempty task,
only the second is persisted. -/
theorem blank_row_filtering_amended :
    save_todos_filter [[("task", Value.str ""), ("done", Value.bool false)],
        [("task", Value.str "write ch2"), ("done", Value.bool false)]] =
      [[("task", Value.str "write ch2"), ("done", Value.bool false)]] ∧
    (∀ (rows : List Doc) (r : Doc),
      r ∈ save_todos_filter rows ↔ r ∈ rows ∧ pyTruthy (dget r "task") = true) ∧
    (∀ (rows : List Doc) (r : Doc),
      r ∈ save_passes_filter rows ↔
        r ∈ rows ∧ r.any (fun kv => !(blankMember kv.2)) = true) := by
  refine ⟨by decide, ?_, ?_⟩
  · intro rows r
    simp [save_todos_filter, List.mem_filter]
  · intro rows r
    simp [save_passes_filter, List.mem_filter]

/-- Claim C8 amended witness: a todo row with a nonempty task is kept
by the todos handler. -/
theorem blank_row_filtering_amended_witness :
    [("task", Value.str "ch3")] ∈
      save_todos_filter [[("task", Value.str "ch3")]] := by
  exact (blank_row_filtering_amended.2.1 [[("task", Value.str "ch3")]]
    [("task", Value.str "ch3")]).mpr ⟨by decide, by decide⟩

/-- Claim C9: countdown returns the remaining-days count on a future
deadline, the overdue marker on a past deadline, and the unknown marker
on an absent or malformed deadline; being a total function of the
embedded input it never raises, malformed input degrading to the
unknown marker. -/
theorem countdown_cases :
    ∀ (today d : Int) (s : String),
      (today < d →
        countdown today (DeadlineInput.valid d) =
          CountdownResult.remaining (d - today).toNat) ∧
      (d < today →
        countdown today (DeadlineInput.valid d) = CountdownResult.overdue) ∧
      countdown today DeadlineInput.absent = CountdownResult.unknown ∧
      countdown today (DeadlineInput.malformed s) = CountdownResult.unknown := by
  intro today d s
  refine ⟨?_, ?_, rfl, rfl⟩
  · intro h
    simp [countdown, if_neg (not_lt.mpr h.le)]
  · intro h
    simp [countdown, if_pos h]

/-- Claim C9 witness: on day 10, a deadline of day 13 yields a
remaining count of 3 days, a deadline of day 9 yields the overdue
marker, and an absent or malformed deadline yields the unknown
marker. -/
theorem countdown_cases_witness :
    countdown 10 (DeadlineInput.valid 13) = CountdownResult.remaining 3 ∧
    countdown 10 (DeadlineInput.valid 9) = CountdownResult.overdue ∧
    countdown 10 DeadlineInput.absent = CountdownResult.unknown ∧
    countdown 10 (DeadlineInput.malformed "next Tuesday-ish") =
      CountdownResult.unknown := by
  have h13 := countdown_cases 10 13 "next Tuesday-ish"
  have h9 := countdown_cases 10 9 "next Tuesday-ish"
  refine ⟨?_, h9.2.1 (by decide), h13.2.2.1, h13.2.2.2⟩
  have h1 := h13.1 (by decide)
  rwa [show ((13 : Int) - 10).toNat = 3 from by decide] at h1

/-- Claim C10: the sidebar progress expression divides total_words by
the user supplied target, whose permitted minimum is 0, without a
guard: at target 0 the expression raises ZeroDivisionError for every
chapters list instead of producing a progress value. -/
theorem progress_div_by_zero_target :
    target_words_min = 0 ∧
    ∀ chs : List Chapter,
      progressValue chs 0 = Except.error PyErr.zeroDivision := by
  refine ⟨rfl, ?_⟩
  intro chs
  simp [progressValue, pyDiv, Except.map]

end NovelForge
